import Mathlib

/-!
Verification of the query-decomposition and retrieval pipeline of the
`lex_query_decomposition` repository.

The development shallowly embeds the Python source into Lean:

* `Question` / `Questions` embed the Pydantic models of `app/models.py`.
* `Value` is a small universe of Python runtime values covering the shapes
  the result-normalization logic distinguishes (typed model objects,
  mappings, lists, tuples, strings, numbers, `None`, and chat-message-like
  objects).  Python floats are modelled as rationals; no claim performs
  floating-point arithmetic, the values are only constructed and compared.
* External calls (LLM generation parsing, embedding backends, vector
  search, reranking) are parameters of the embedded functions, supplied as
  `Except`-valued oracles; an `Except.error` models a raised exception.
* Python `try/except` blocks are modelled by matching on `Except` results;
  an exception that the source does not catch is propagated as an
  `Except.error` of the embedded function.
-/

/-- Embeds the Pydantic model `Question` of `app/models.py`: a question
text with an optional answer. -/
structure Question where
  question : String
  answer : Option String
deriving DecidableEq, Repr

/-- Embeds the Pydantic model `Questions` of `app/models.py`: an ordered
collection of questions (the spec's QuestionSet). -/
structure Questions where
  questions : List Question
deriving DecidableEq, Repr

/-- Universe of Python runtime values used by the shape-normalization
logic.  `vQuestionObj` / `vQuestionsObj` are the typed Pydantic objects;
`vChatMessage` stands for Haystack's ChatMessage-like objects (objects
with `content` and `role` attributes but no `questions` attribute);
`vTuple` is a Python tuple, distinct from `vList` because
`isinstance(x, list)` is false for tuples. -/
inductive Value where
  | vNull
  | vBool (b : Bool)
  | vNum (n : Int)
  | vRat (q : Rat)
  | vStr (s : String)
  | vList (items : List Value)
  | vTuple (items : List Value)
  | vDict (entries : List (String × Value))
  | vQuestionObj (q : Question)
  | vQuestionsObj (qs : Questions)
  | vChatMessage (role content : String)
deriving Repr

/-- Python `dict` lookup (`d.get(key)` / `key in d`) on an association
list; dict literals in the modelled code never repeat keys, so first-match
lookup is faithful. -/
def dictGet {α : Type} : List (String × α) → String → Option α
  | [], _ => none
  | (k, v) :: rest, key => if k = key then some v else dictGet rest key

/-- Python `d[key] = v` on an association list: replaces an existing
binding in place, otherwise appends (Python dicts preserve insertion
order). -/
def setEntry : List (String × Value) → String → Value → List (String × Value)
  | [], key, v => [(key, v)]
  | (k, w) :: rest, key, v =>
    if k = key then (k, v) :: rest else (k, w) :: setEntry rest key v

/-- Pydantic validation of a `str` field: only Python `str` values are
accepted (Pydantic v2 smart mode does not coerce other types to `str`). -/
def validateStrField : Value → Except String String
  | .vStr s => .ok s
  | _ => .error "ValidationError: str expected"

/-- Pydantic validation of an `Optional[str]` field; an absent key counts
as `None`. -/
def validateOptStrField : Option Value → Except String (Option String)
  | none => .ok none
  | some .vNull => .ok none
  | some (.vStr s) => .ok (some s)
  | some _ => .error "ValidationError: str or none expected"

/-- Embeds `Question.model_validate` on a mapping: `question` is a
required `str` field, `answer` an optional one; extra keys are ignored
(Pydantic default). -/
def question_model_validate_dict (entries : List (String × Value)) : Except String Question := do
  let qtext ← match dictGet entries "question" with
    | some v => validateStrField v
    | none => .error "ValidationError: field question required"
  let ans ← validateOptStrField (dictGet entries "answer")
  .ok ⟨qtext, ans⟩

/-- Pydantic validation of one element of a `List[Question]` field:
accepts an existing `Question` instance or a coercible mapping. -/
def validateQuestionItem : Value → Except String Question
  | .vQuestionObj q => .ok q
  | .vDict entries => question_model_validate_dict entries
  | _ => .error "ValidationError: question item"

/-- Pydantic validation of the elements of a `List[Question]` field, as
performed by the constructor call `Questions(questions=items)`; the first
invalid element raises. -/
def validateQuestionsField : List Value → Except String (List Question)
  | [] => .ok []
  | v :: rest =>
    match validateQuestionItem v with
    | .error e => .error e
    | .ok q =>
      match validateQuestionsField rest with
      | .error e => .error e
      | .ok tail => .ok (q :: tail)

/-- Embeds `Questions.model_validate` on a mapping: the `questions` field
defaults to the empty list when absent; a present value must be a sequence
of valid question items (Pydantic accepts lists and tuples for a `List`
field). -/
def questions_model_validate_dict (entries : List (String × Value)) : Except String Questions :=
  match dictGet entries "questions" with
  | none => .ok ⟨[]⟩
  | some (.vList items) => (validateQuestionsField items).map (⟨·⟩)
  | some (.vTuple items) => (validateQuestionsField items).map (⟨·⟩)
  | some _ => .error "ValidationError: list expected"

/-- Embeds `Question.model_dump(mode='json')`: a mapping with the
`question` text and the `answer` (or JSON null). -/
def model_dump_question (q : Question) : Value :=
  .vDict [("question", .vStr q.question),
          ("answer", match q.answer with | some a => .vStr a | none => .vNull)]

/-- Embeds `Questions.model_dump(mode='json')`. -/
def model_dump_questions (qs : Questions) : Value :=
  .vDict [("questions", .vList (qs.questions.map model_dump_question))]

mutual
/-- Embeds `_prepare_for_serialization` of `app/utils/cache.py`: Pydantic
models are dumped to plain mappings, mappings and lists are processed
recursively, everything else (tuples, scalars, chat messages — none of
which expose `model_dump` or `dict`) is returned as-is. -/
def _prepare_for_serialization : Value → Value
  | .vQuestionsObj qs => model_dump_questions qs
  | .vQuestionObj q => model_dump_question q
  | .vDict entries => .vDict (prepareEntries entries)
  | .vList items => .vList (prepareItems items)
  | v => v

def prepareEntries : List (String × Value) → List (String × Value)
  | [] => []
  | (k, v) :: rest => (k, _prepare_for_serialization v) :: prepareEntries rest

def prepareItems : List Value → List Value
  | [] => []
  | v :: rest => _prepare_for_serialization v :: prepareItems rest
end

mutual
/-- Embeds the composite `json.loads(json.dumps(v))`: tuples are encoded
as JSON arrays and come back as lists, JSON-compatible values survive
unchanged, and non-serializable values (Pydantic objects, chat messages)
raise a `TypeError`, modelled as `none`. -/
def py_json_round_trip : Value → Option Value
  | .vNull => some .vNull
  | .vBool b => some (.vBool b)
  | .vNum n => some (.vNum n)
  | .vRat q => some (.vRat q)
  | .vStr s => some (.vStr s)
  | .vList items => (pyJsonItems items).map .vList
  | .vTuple items => (pyJsonItems items).map .vList
  | .vDict entries => (pyJsonEntries entries).map .vDict
  | _ => none

def pyJsonItems : List Value → Option (List Value)
  | [] => some []
  | v :: rest =>
    match py_json_round_trip v, pyJsonItems rest with
    | some w, some ws => some (w :: ws)
    | _, _ => none

def pyJsonEntries : List (String × Value) → Option (List (String × Value))
  | [] => some []
  | (k, v) :: rest =>
    match py_json_round_trip v, pyJsonEntries rest with
    | some w, some ws => some ((k, w) :: ws)
    | _, _ => none
end

/-- Embeds the per-element loop of `_reconstruct_models` (used in both its
dict branch and its list branch, which duplicate the same code): elements
that are mappings with a `question` key are rebuilt via
`Question(question=e.get("question", ""), answer=e.get("answer"))`, other
elements are silently skipped, and a constructor error aborts the whole
loop (the surrounding `try`). -/
def _reconstruct_questions_loop : List Value → Except String (List Question)
  | [] => .ok []
  | .vDict entries :: rest =>
    if (dictGet entries "question").isSome then
      match validateStrField ((dictGet entries "question").getD (.vStr "")) with
      | .error e => .error e
      | .ok qtext =>
        match validateOptStrField (dictGet entries "answer") with
        | .error e => .error e
        | .ok ans =>
          match _reconstruct_questions_loop rest with
          | .error e => .error e
          | .ok tail => .ok (⟨qtext, ans⟩ :: tail)
    else _reconstruct_questions_loop rest
  | _ :: rest => _reconstruct_questions_loop rest

mutual
/-- Embeds `_reconstruct_models` of `app/utils/cache.py`.  A mapping whose
`questions` key holds a list is rebuilt into a `Questions` object when the
loop yields at least one question, otherwise the mapping is processed
recursively; a tuple whose first element is the string `"questions"` and
whose second element is a non-empty list is rebuilt via
`Questions(questions=...)` (falling back to the raw list on a validation
error), other tuples of length at least two are rebuilt as a pair of the
first element and the reconstruction of the second; a list whose first
element is a mapping with both `question` and `answer` keys goes through
the same loop; everything else is returned unchanged. -/
def _reconstruct_models : Value → Value
  | .vDict entries =>
    match dictGet entries "questions" with
    | some (.vList items) =>
      match _reconstruct_questions_loop items with
      | .ok (q :: qs) => .vQuestionsObj ⟨q :: qs⟩
      | _ => .vDict (reconstructEntries entries)
    | _ => .vDict (reconstructEntries entries)
  | .vTuple (first :: second :: _rest) =>
    match first with
    | .vStr s =>
      if s = "questions" then
        match second with
        | .vList [] => .vList []
        | .vList (i :: is) =>
          match validateQuestionsField (i :: is) with
          | .ok qs => .vQuestionsObj ⟨qs⟩
          | .error _ => .vList (i :: is)
        | _ => .vList []
      else .vTuple [.vStr s, _reconstruct_models second]
    | f => .vTuple [f, _reconstruct_models second]
  | .vTuple items => .vTuple items
  | .vList items =>
    match items with
    | .vDict e0 :: _ =>
      if (dictGet e0 "question").isSome && (dictGet e0 "answer").isSome then
        match _reconstruct_questions_loop items with
        | .ok (q :: qs) => .vQuestionsObj ⟨q :: qs⟩
        | _ => .vList (reconstructItems items)
      else .vList (reconstructItems items)
    | _ => .vList (reconstructItems items)
  | v => v

def reconstructEntries : List (String × Value) → List (String × Value)
  | [] => []
  | (k, v) :: rest => (k, _reconstruct_models v) :: reconstructEntries rest

def reconstructItems : List Value → List Value
  | [] => []
  | v :: rest => _reconstruct_models v :: reconstructItems rest
end

/-- Composite cache round trip for a stored value: serialize with
`_prepare_for_serialization`, cross the JSON persistence boundary, and
apply `_reconstruct_models` on read, as `cache_result` / `get_cached_result`
do in `app/utils/cache.py`. -/
def cache_round_trip (v : Value) : Option Value :=
  (py_json_round_trip (_prepare_for_serialization v)).map _reconstruct_models

/-- Embeds the `questions` attribute access used by the validator: in this
value universe only a `Questions` object exposes a `questions` attribute
(plain dicts, lists, tuples and chat messages do not). -/
def questions_attr : Value → Option Value
  | .vQuestionsObj qs => some (.vList (qs.questions.map Value.vQuestionObj))
  | _ => none

/-- Embeds the coercion phase of `DecompositionValidator.run` in
`app/components/decomposition_validator.py`: an actual `Questions`
instance is used as-is; otherwise a value exposing a list-valued
`questions` attribute is rebuilt via `Questions(questions=...)`, with any
conversion error logged and treated as absent (`none`). -/
def validator_coerce : Value → Option Questions
  | .vQuestionsObj qs => some qs
  | v =>
    match questions_attr v with
    | some (.vList items) =>
      match validateQuestionsField items with
      | .ok qs => some ⟨qs⟩
      | .error _ => none
    | _ => none

/-- Embeds `DecompositionValidator.run`: coerce the input if possible;
when the input is absent, not coercible, or has no questions, substitute
the single-element fallback built from the original question.
`run_async` delegates to this same function on a worker thread. -/
def DecompositionValidator.run (questions : Option Value) (original_question : String) : Questions :=
  let questions_obj : Option Questions :=
    match questions with
    | none => none
    | some v => validator_coerce v
  match questions_obj with
  | none => ⟨[⟨original_question, none⟩]⟩
  | some ⟨[]⟩ => ⟨[⟨original_question, none⟩]⟩
  | some ⟨q :: rest⟩ => ⟨q :: rest⟩

/-- Python `text.find(c)` restricted to one character: index of the first
occurrence, `none` when absent (the source's `-1` is reintroduced at the
use site). -/
def firstIdxOf (c : Char) (text : List Char) : Option Nat :=
  text.findIdx? (· = c)

/-- Python `text.rfind(c)`: index of the last occurrence. -/
def lastIdxOf (c : Char) (text : List Char) : Option Nat :=
  match (text.reverse.findIdx? (· = c)) with
  | some k => some (text.length - 1 - k)
  | none => none

/-- Collapses a structured-parse outcome the way the `except` clause of
`_parse_structured_output` does for the `Questions` schema: a parse error
yields the empty `Questions` object. -/
def or_empty : Except String Questions → Questions
  | .ok qs => qs
  | .error _ => ⟨[]⟩

/-- Embeds `ExtendedCohereGenerator._parse_structured_output` of
`app/components/custom_generators.py` for the `Questions` schema used by
the pipeline's generators.  `model_validate_json` is the oracle for
JSON-parsing a character sequence against the schema (the source's
`json.loads` + `model_validate` on the sliced branch and
`model_validate_json` on the whole-text branch are semantically this same
parse); any parse exception is the oracle's `error` and is absorbed into
the empty `Questions` object. -/
def ExtendedCohereGenerator._parse_structured_output
    (model_validate_json : List Char → Except String Questions) (text : List Char) : Questions :=
  let json_start : Int := match firstIdxOf '\x7b' text with | some i => (i : Int) | none => -1
  let json_end : Int := (match lastIdxOf '\x7d' text with | some j => (j : Int) | none => -1) + 1
  if 0 ≤ json_start ∧ json_start < json_end then
    or_empty (model_validate_json ((text.drop json_start.toNat).take (json_end - json_start).toNat))
  else
    or_empty (model_validate_json text)

/-- Component outputs of one pipeline run, as the `results` mapping
returned by `AsyncPipeline.run_async`: component name to output mapping. -/
abbrev PipelineResults := List (String × List (String × Value))

/-- Title fields recognized by both metadata extractions, in priority
order. -/
def title_fields : List String := ["case_title", "article_title", "legislation_title"]

namespace LegalDecompositionPipelineService

/-- Embeds `if replies and len(replies) > 0: final_answer = replies[0]` of
`_process_pipeline_results` (lines 225-228): falsy values keep the
default, sized non-empty sequences give their first element (a string
gives its first character), and values that Python cannot `len` or index
raise, which propagates to `run_pipeline`'s handler. -/
def py_replies_first : Value → Except String Value
  | .vList [] => .ok (.vStr "No answer generated")
  | .vList (r :: _) => .ok r
  | .vTuple [] => .ok (.vStr "No answer generated")
  | .vTuple (r :: _) => .ok r
  | .vNull => .ok (.vStr "No answer generated")
  | .vBool false => .ok (.vStr "No answer generated")
  | .vBool true => .error "TypeError: object of type bool has no len"
  | .vNum n => if n = 0 then .ok (.vStr "No answer generated")
      else .error "TypeError: object of type int has no len"
  | .vRat q => if q = 0 then .ok (.vStr "No answer generated")
      else .error "TypeError: object of type float has no len"
  | .vStr "" => .ok (.vStr "No answer generated")
  | .vStr s => .ok (.vStr (s.take 1))
  | .vDict [] => .ok (.vStr "No answer generated")
  | .vDict _ => .error "KeyError: 0"
  | _ => .error "TypeError: object has no len"

/-- Embeds step 1 of `_process_pipeline_results`: the final answer is the
first reply of the `reasoning_llm` component, defaulting to the literal
`"No answer generated"`. -/
def extract_final_answer (results : PipelineResults) : Except String Value :=
  match dictGet results "reasoning_llm" with
  | none => .ok (.vStr "No answer generated")
  | some outs =>
    match dictGet outs "replies" with
    | none => .ok (.vStr "No answer generated")
    | some replies => py_replies_first replies

/-- Embeds the list branch of step 2 of `_process_pipeline_results` (lines
245-251): mappings are validated as questions (a validation error
propagates), values with a `question` attribute are kept, anything else is
silently dropped. -/
def resolver_list_loop : List Value → Except String (List Question)
  | [] => .ok []
  | .vDict entries :: rest => do
    let q ← question_model_validate_dict entries
    let tail ← resolver_list_loop rest
    .ok (q :: tail)
  | .vQuestionObj q :: rest => do
    let tail ← resolver_list_loop rest
    .ok (q :: tail)
  | _ :: rest => resolver_list_loop rest

/-- Embeds the shape dispatch of step 2 of `_process_pipeline_results`
(lines 234-261), the post-resolution consumer of a structured reply: a
value with a `questions` attribute is used as-is; a mapping with a
`questions` key goes through `Questions.model_validate` (whose exceptions
propagate to `run_pipeline`'s handler); a list is rebuilt element-wise; a
chat-message-like object falls to the empty `Questions`; every other
shape — tuples included — falls to the empty `Questions` fallback. -/
def process_structured_reply (sub_questions_raw : Value) : Except String Value :=
  match sub_questions_raw with
  | .vQuestionsObj qs => .ok (.vQuestionsObj qs)
  | .vDict entries =>
    if (dictGet entries "questions").isSome then
      (questions_model_validate_dict entries).map Value.vQuestionsObj
    else .ok (.vQuestionsObj ⟨[]⟩)
  | .vList items => (resolver_list_loop items).map (fun l => .vQuestionsObj ⟨l⟩)
  | .vChatMessage _ _ => .ok (.vQuestionsObj ⟨[]⟩)
  | .vTuple _ => .ok (.vQuestionsObj ⟨[]⟩)
  | _ => .ok (.vQuestionsObj ⟨[]⟩)

/-- Embeds step 2's surrounding conditional: the resolver's structured
reply is normalized when present, otherwise the validator's output is
used, otherwise `sub_questions` stays `None`. -/
def extract_sub_questions (results : PipelineResults) : Except String Value :=
  match dictGet results "query_resolver" with
  | some outs =>
    match dictGet outs "structured_reply" with
    | some raw => process_structured_reply raw
    | none => match dictGet results "validator" with
      | some vouts => .ok ((dictGet vouts "valid_questions").getD .vNull)
      | none => .ok .vNull
  | none =>
    match dictGet results "validator" with
    | some vouts => .ok ((dictGet vouts "valid_questions").getD .vNull)
    | none => .ok .vNull

/-- Embeds the title loop of the pipeline-level `_extract_document_metadata`
(lines 301-304): the first title field present in the document metadata is
copied, presence alone suffices here (no truthiness check). -/
def title_entry (mentries : List (String × Value)) : List String → Option (String × Value)
  | [] => none
  | f :: fs =>
    match dictGet mentries f with
    | some v => some (f, v)
    | none => title_entry mentries fs

/-- Embeds the placeholder title of lines 309-312: a truthy question text
gives `"Result for: <first 30 chars>..."`, a falsy one gives
`"Unknown document"`.  In every reachable configuration the question value
is a string (the retriever builds it from `query.question`); a non-string
truthy value would raise on slicing and is modelled as an error. -/
def default_title : Value → Except String Value
  | .vStr "" => .ok (.vStr "Unknown document")
  | .vStr s => .ok (.vStr ("Result for: " ++ s.take 30 ++ "..."))
  | .vNull => .ok (.vStr "Unknown document")
  | .vBool false => .ok (.vStr "Unknown document")
  | .vNum 0 => .ok (.vStr "Unknown document")
  | .vList [] => .ok (.vStr "Unknown document")
  | .vTuple [] => .ok (.vStr "Unknown document")
  | .vDict [] => .ok (.vStr "Unknown document")
  | _ => .error "TypeError: unsliceable question text"

/-- Embeds the per-document body of the pipeline-level
`_extract_document_metadata` (lines 290-314): build the entry with its
synthetic ordinal score `1.0 - 0.1 * position`, the document id (or an
`unknown-N` placeholder), one copied title field, and the placeholder
title when no title field exists. -/
def doc_metadata_entry (question_value fdoc : Value) (idx n_before : Nat) : Except String Value :=
  match fdoc with
  | .vDict fentries =>
    match (dictGet fentries "metadata").getD (.vDict []) with
    | .vDict mentries =>
      let base := [("id", Value.vStr ("doc-" ++ toString (n_before + 1))),
                   ("score", Value.vRat (1 - (idx : Rat) / 10)),
                   ("document_id", (dictGet mentries "document_id").getD
                      (.vStr ("unknown-" ++ toString (n_before + 1))))]
      match title_entry mentries title_fields with
      | some (f, v) => .ok (.vDict (base ++ [(f, v)]))
      | none => do
        let fallback ← default_title question_value
        .ok (.vDict (base ++ [("case_title", fallback)]))
    | _ => .error "AttributeError: get"
  | _ => .error "AttributeError: get"

/-- Embeds the inner document loop of the pipeline-level
`_extract_document_metadata`: at most the first three documents of a pair
contribute entries; ids are numbered by the global count so far. -/
def docs_meta_loop (question_value : Value) : List Value → Nat → List Value → Except String (List Value)
  | [], _, acc => .ok acc
  | fdoc :: rest, idx, acc => do
    let entry ← doc_metadata_entry question_value fdoc idx acc.length
    docs_meta_loop question_value rest (idx + 1) (acc ++ [entry])

/-- Embeds the per-pair body of the pipeline-level
`_extract_document_metadata` (lines 282-314): the pair must be a mapping
(`pair.get` on anything else raises); a falsy or absent `documents` value
contributes nothing. -/
def process_pair_metadata (pair : Value) (acc : List Value) : Except String (List Value) :=
  match pair with
  | .vDict pentries =>
    let question_value := (dictGet pentries "question").getD (.vStr "")
    match dictGet pentries "documents" with
    | some (.vList (d :: ds)) => docs_meta_loop question_value ((d :: ds).take 3) 0 acc
    | some (.vTuple (d :: ds)) => docs_meta_loop question_value ((d :: ds).take 3) 0 acc
    | some (.vList []) => .ok acc
    | some (.vTuple []) => .ok acc
    | some .vNull => .ok acc
    | some (.vBool false) => .ok acc
    | some (.vStr "") => .ok acc
    | none => .ok acc
    | some _ => .error "TypeError: documents not sliceable"
  | _ => .error "AttributeError: get"

/-- Embeds the pair loop of the pipeline-level `_extract_document_metadata`. -/
def pairs_meta_loop : List Value → List Value → Except String (List Value)
  | [], acc => .ok acc
  | pair :: rest, acc => do
    let acc' ← process_pair_metadata pair acc
    pairs_meta_loop rest acc'

/-- Embeds the pipeline-level `_extract_document_metadata` of
`app/pipelines/legal_decomposition_pipeline.py` (lines 275-316). -/
def _extract_document_metadata (results : PipelineResults) : Except String (List Value) :=
  match dictGet results "hybrid_retriever" with
  | none => .ok []
  | some outs =>
    match dictGet outs "question_context_pairs" with
    | none => .ok []
    | some (.vList pairs) => pairs_meta_loop pairs []
    | some (.vTuple pairs) => pairs_meta_loop pairs []
    | some _ => .error "TypeError: pairs not iterable"

/-- Embeds `_process_pipeline_results` (lines 221-273): assemble the
standardized result mapping; any exception raised while processing
(e.g. a Pydantic validation error in step 2) propagates to
`run_pipeline`'s handler.  The `question` parameter is kept because the
source takes it, although its body never reads it. -/
def _process_pipeline_results (results : PipelineResults) (_question : String) :
    Except String (List (String × Value)) := do
  let final_answer ← extract_final_answer results
  let sub_questions ← extract_sub_questions results
  let document_metadata ← _extract_document_metadata results
  .ok [("answer", final_answer), ("sub_questions", sub_questions),
       ("document_metadata", .vList document_metadata), ("cache_hit", .vBool false)]

/-- Embeds `run_pipeline` (lines 150-219).  `cached` is the mapping
returned by `get_cached_result` (the cache layer only ever stores the
serialized result mapping, and its read path returns `None` on every
internal failure, so a hit is a mapping); `pipeline_outcome` is the
outcome of `pipeline.run_async` — `error` models an exception escaping the
pipeline stages; `elapsed` is the measured wall-clock time.  The cache
write (`cache_result`) catches all its own exceptions and only returns a
success flag, so it does not affect the returned value. -/
def run_pipeline (cached : Option (List (String × Value)))
    (pipeline_outcome : Except String PipelineResults)
    (question : String) (elapsed : Rat) : Value :=
  match cached with
  | some cached_result => .vDict (setEntry cached_result "processing_time" (.vRat 0))
  | none =>
    match (pipeline_outcome.bind fun results => _process_pipeline_results results question) with
    | .ok pipeline_result =>
      .vDict (setEntry (setEntry pipeline_result "processing_time" (.vRat elapsed))
                "cache_hit" (.vBool false))
    | .error e =>
      .vDict [("answer", .vStr ("An error occurred while processing your question: " ++ e)),
              ("error", .vStr e),
              ("document_metadata", .vList []),
              ("processing_time", .vRat elapsed),
              ("cache_hit", .vBool false)]

end LegalDecompositionPipelineService

/-- Embeds step 4 of `EnhancedLegalPipelineService.process_with_chat_support`
(`app/services/enhanced_pipeline_service.py`, lines 76-105), the consumer
that reads `sub_questions` from a pipeline result via `.get`: an absent
value (`None`) yields no decomposed questions; a tuple of length at least
two with a list second element yields that list; a value with a
`questions` attribute yields its questions; chat-message-like and
unexpected values yield the empty list. -/
def EnhancedLegalPipelineService.extract_decomposed_questions
    (sub_questions_obj : Option Value) : List Value :=
  match sub_questions_obj with
  | none => []
  | some (.vTuple (_ :: second :: _)) =>
    match second with
    | .vList l => l
    | _ => []
  | some (.vTuple _) => []
  | some (.vQuestionsObj qs) => qs.questions.map Value.vQuestionObj
  | some (.vChatMessage _ _) => []
  | some _ => []

/-- Embeds a Haystack `Document` as the retriever sees it: the always
present `id`, the text `content`, an optional relevance `score`
(comparison-only, so modelled as an integer), and the `meta` mapping with
string values (empty string models a falsy metadata value). -/
structure Doc where
  id : String
  content : String
  score : Option Int
  meta : List (String × String)
deriving DecidableEq, Repr

/-- Metadata extracted by `MultiQueryHybridRetriever._extract_document_metadata`:
the `document_id` entry (Python `None` when the object has neither a meta
entry nor an `id` attribute) and at most one title field with its value. -/
structure DocMetadata where
  document_id : Option String
  title : Option (String × String)
deriving DecidableEq, Repr

/-- Runtime values flowing through `_format_documents_for_context`: either
a real `Document` or one of the plain `{"content": ..., "metadata": ...}`
mappings the formatter itself produces.  The distinction matters because
the formatter reads `score`, `meta`, `id` and `content` as attributes,
which plain mappings do not have. -/
inductive PyDoc where
  | doc (d : Doc)
  | fdict (content : String) (metadata : DocMetadata)
deriving DecidableEq, Repr

/-- String lookup in a document's `meta` mapping. -/
def metaGet : List (String × String) → String → Option String
  | [], _ => none
  | (k, v) :: rest, key => if k = key then some v else metaGet rest key

/-- Embeds the title loop of
`MultiQueryHybridRetriever._extract_document_metadata` (lines 106-110):
the first of the three title fields that is present with a truthy
(non-empty) value is extracted; a present but empty title does not stop
the loop. -/
def first_truthy_title (meta : List (String × String)) : List String → Option (String × String)
  | [] => none
  | f :: fs =>
    match metaGet meta f with
    | some v => if v = "" then first_truthy_title meta fs else some (f, v)
    | none => first_truthy_title meta fs

/-- Embeds `MultiQueryHybridRetriever._extract_document_metadata` (lines
87-112) on a real document: the `document_id` comes from a truthy `meta`
mapping when present there, else from the document's `id` attribute; the
title is the first truthy title field of a truthy `meta` mapping. -/
def MultiQueryHybridRetriever._extract_document_metadata (d : Doc) : DocMetadata :=
  let from_meta := if d.meta.isEmpty then none else metaGet d.meta "document_id"
  { document_id := some (from_meta.getD d.id),
    title := if d.meta.isEmpty then none else first_truthy_title d.meta title_fields }

/-- Attribute-based metadata extraction on any runtime value: a plain
mapping has no `meta` attribute and no `id` attribute, so both fields
degrade exactly as `hasattr` / `getattr(doc, "id", None)` dictate. -/
def py_extract_metadata : PyDoc → DocMetadata
  | .doc d => MultiQueryHybridRetriever._extract_document_metadata d
  | .fdict _ _ => ⟨none, none⟩

/-- Embeds the source-key derivation of `_format_documents_for_context`
(lines 134-141): a title field in the extracted metadata gives
`"field:value"`, otherwise the extracted `document_id` (which is Python
`None` for a formatted mapping). -/
def source_key_of (md : DocMetadata) : Option String :=
  match md.title with
  | some (f, v) => some (f ++ ":" ++ v)
  | none => md.document_id

/-- Sort key of line 128, `getattr(x, "score", 0) or 0`: a missing
`score` attribute or a `None`/zero score count as `0`. -/
def py_score : PyDoc → Int
  | .doc d => d.score.getD 0
  | .fdict _ _ => 0

/-- Attribute access `doc.content`: plain mappings store their content
under a key, not as an attribute, so the access raises for them. -/
def py_content_attr : PyDoc → Option String
  | .doc d => some d.content
  | .fdict _ _ => none

/-- Stable insertion into a list sorted by descending score, preferring
the earlier element on ties. -/
def insert_by_score_desc (a : PyDoc) : List PyDoc → List PyDoc
  | [] => [a]
  | b :: bs => if py_score b ≤ py_score a then a :: b :: bs else b :: insert_by_score_desc a bs

/-- Stable descending sort by score, embedding
`sorted(documents, key=..., reverse=True)` of line 128.  Python's sort is
stable and the key order is total, and a stable sort for a total preorder
is unique, so this structural insertion sort computes the same list. -/
def sorted_by_score_desc : List PyDoc → List PyDoc
  | [] => []
  | a :: as => insert_by_score_desc a (sorted_by_score_desc as)

/-- Embeds the dedup-and-format loop of `_format_documents_for_context`
(lines 130-156): per document, extract metadata, derive the source key,
skip already-seen keys, otherwise record the key and emit the
`{"content": doc.content, "metadata": metadata}` mapping.  The source adds
the key to the seen set just before reading `doc.content`; since the
raised `AttributeError` aborts the whole call, the observable behaviour is
the same. -/
def format_loop : List PyDoc → List (Option String) → Except String (List PyDoc)
  | [], _ => .ok []
  | d :: rest, seen =>
    let md := py_extract_metadata d
    let key := source_key_of md
    if key ∈ seen then format_loop rest seen
    else
      match py_content_attr d with
      | none => .error "AttributeError: content"
      | some c =>
        match format_loop rest (key :: seen) with
        | .error e => .error e
        | .ok tail => .ok (.fdict c md :: tail)

/-- Embeds `MultiQueryHybridRetriever._format_documents_for_context`
(lines 114-158). -/
def MultiQueryHybridRetriever._format_documents_for_context
    (documents : List PyDoc) : Except String (List PyDoc) :=
  format_loop (sorted_by_score_desc documents) []

/-- Declarative first-occurrence-per-key dedup, parameterized by the key
function; used to state what the formatter computes. -/
def dedup_first_by (key : PyDoc → Option String) : List PyDoc → List (Option String) → List PyDoc
  | [], _ => []
  | d :: rest, seen =>
    if key d ∈ seen then dedup_first_by key rest seen
    else d :: dedup_first_by key rest (key d :: seen)

/-- Key function actually used by the formatter: extract metadata by
attribute access, then derive the source key. -/
def code_source_key (d : PyDoc) : Option String :=
  source_key_of (py_extract_metadata d)

/-- The mapping a surviving document is turned into. -/
def format_entry : PyDoc → PyDoc
  | .doc d => .fdict d.content (MultiQueryHybridRetriever._extract_document_metadata d)
  | .fdict c m => .fdict c m

/-- Declarative description of one formatter run on a list of real
documents: sort by score descending (stable), keep the first occurrence
of each source key, and emit the content/metadata mappings. -/
def format_spec (docs : List Doc) : List PyDoc :=
  (dedup_first_by code_source_key (sorted_by_score_desc (docs.map PyDoc.doc)) []).map format_entry

/-- Source-key rule as written in the claim: any present title field
(truthy or not, in the same priority order) gives `"field:value"`,
otherwise the extracted document id. -/
def claimed_title (meta : List (String × String)) : List String → Option (String × String)
  | [] => none
  | f :: fs =>
    match metaGet meta f with
    | some v => some (f, v)
    | none => claimed_title meta fs

/-- Claimed key of a runtime document value, for the literal reading of
the deduplication claim. -/
def claimed_source_key (p : PyDoc) : Option String :=
  match p with
  | .doc d =>
    match claimed_title d.meta title_fields with
    | some (f, v) => some (f ++ ":" ++ v)
    | none => (MultiQueryHybridRetriever._extract_document_metadata d).document_id
  | .fdict _ m => source_key_of m

/-- Formatter behaviour the claim describes, with the claimed key rule. -/
def claimed_format (docs : List Doc) : List PyDoc :=
  (dedup_first_by claimed_source_key (sorted_by_score_desc (docs.map PyDoc.doc)) []).map format_entry

/-- Embeds the per-question embedding loop shared by
`MultiQueryDenseEmbedder.run` and `MultiQuerySparseEmbedder.run`
(`app/components/embedders.py`): each question text is embedded in turn
and the first backend failure aborts the loop. -/
def embed_loop {α : Type} (embed : String → Except String α) : List Question → Except String (List α)
  | [] => .ok []
  | q :: rest =>
    match embed q.question with
    | .error e => .error e
    | .ok v =>
      match embed_loop embed rest with
      | .error e => .error e
      | .ok tail => .ok (v :: tail)

/-- Embeds `MultiQueryDenseEmbedder.run` and `MultiQuerySparseEmbedder.run`
(lines 96-122 and 182-208 of `app/components/embedders.py`), which are the
same function up to the embedding backend and output key: on any
per-question failure the surrounding `try` discards the partial list and
returns the empty list.  The `run_async` variants gather the same
per-question calls and land in the same `except` branch, so they are
embedded by this function as well. -/
def multi_query_embedder_run {α : Type} (questions : Questions)
    (embed : String → Except String α) : List α :=
  match embed_loop embed questions.questions with
  | .ok es => es
  | .error _ => []

/-- One question-context pair produced by the retriever. -/
structure QuestionContextPair where
  question : String
  documents : List PyDoc
deriving DecidableEq, Repr

/-- Python `zip` over three sequences: truncates to the shortest. -/
def zip3 {α β γ : Type} : List α → List β → List γ → List (α × β × γ)
  | a :: as, b :: bs, c :: cs => (a, b, c) :: zip3 as bs cs
  | _, _, _ => []

/-- Embeds the per-sub-question unit of `MultiQueryHybridRetriever.run` /
`run_async` (lines 182-224 and 256-318 of `app/components/retrievers.py`):
a retrieval failure degrades to no documents; zero candidates skip
reranking; a reranking failure falls back to the pre-rerank candidates;
the surviving documents are formatted.  The retrieval and rerank oracles
return the `documents` entry of the respective component result. -/
def process_query {δ σ : Type} (retrieve : δ → σ → Except String (List Doc))
    (rerank : String → List Doc → Except String (List Doc))
    (query : Question) (dense_emb : δ) (sparse_emb : σ) :
    Except String QuestionContextPair :=
  let query_text := query.question
  let retrieved := match retrieve dense_emb sparse_emb with
    | .ok ds => ds
    | .error _ => []
  let docs := if retrieved.isEmpty then []
    else match rerank query_text retrieved with
      | .ok rs => rs
      | .error _ => retrieved
  match MultiQueryHybridRetriever._format_documents_for_context (docs.map PyDoc.doc) with
  | .error e => .error e
  | .ok formatted => .ok ⟨query_text, formatted⟩

/-- Per-unit computation with the formatting expressed declaratively;
`process_query` provably never fails on real documents and computes
exactly this. -/
def process_query_pure {δ σ : Type} (retrieve : δ → σ → Except String (List Doc))
    (rerank : String → List Doc → Except String (List Doc))
    (query : Question) (dense_emb : δ) (sparse_emb : σ) : QuestionContextPair :=
  let query_text := query.question
  let retrieved := match retrieve dense_emb sparse_emb with
    | .ok ds => ds
    | .error _ => []
  let docs := if retrieved.isEmpty then []
    else match rerank query_text retrieved with
      | .ok rs => rs
      | .error _ => retrieved
  ⟨query_text, format_spec docs⟩

/-- Sequential composition of the per-unit computations.  In `run` this is
the `for` loop; in `run_async` the units are created in input order and
joined with `asyncio.gather`, which returns results in the order of its
arguments regardless of completion order, so both methods compute this
same list. -/
def pairs_loop {δ σ : Type} (retrieve : δ → σ → Except String (List Doc))
    (rerank : String → List Doc → Except String (List Doc)) :
    List (Question × δ × σ) → Except String (List QuestionContextPair)
  | [] => .ok []
  | (q, de, se) :: rest =>
    match process_query retrieve rerank q de se with
    | .error e => .error e
    | .ok p =>
      match pairs_loop retrieve rerank rest with
      | .error e => .error e
      | .ok tail => .ok (p :: tail)

/-- Embeds `MultiQueryHybridRetriever.run` / `run_async` (lines 160-231
and 233-338): the queries are zipped with the two embedding lists (Python
`zip` truncates), each unit is processed with per-unit failure isolation,
and any exception escaping a unit (none is possible for real documents)
makes the outer `except` return the empty pair list. -/
def MultiQueryHybridRetriever.run {δ σ : Type} (queries : Questions)
    (dense_embeddings : List δ) (sparse_embeddings : List σ)
    (retrieve : δ → σ → Except String (List Doc))
    (rerank : String → List Doc → Except String (List Doc)) : List QuestionContextPair :=
  match pairs_loop retrieve rerank (zip3 queries.questions dense_embeddings sparse_embeddings) with
  | .ok ps => ps
  | .error _ => []

/-! Concrete inputs used by the claim theorems below. -/

/-- Concrete 2-tuple whose second element is a sequence of questions, the
shape the spec's normalization case 4 is about. -/
def c1_tuple : Value :=
  .vTuple [.vStr "questions",
           .vList [.vDict [("question", .vStr "What is consideration?"), ("answer", .vNull)]]]

/-- Parse oracle for the C8 witness: accepts exactly the two-character
slice consisting of the brace pair. -/
def c8_parse (s : List Char) : Except String Questions :=
  if s = "\x7b\x7d".toList then .ok ⟨[⟨"w", none⟩]⟩ else .error "parse error"

/-- Document with a present but empty `case_title`; under the code's key
rule it shares the key `d1` with `c4_doc2`, under the claim's key rule it
has the distinct key `case_title:`. -/
def c4_doc1 : Doc := ⟨"a", "content-1", some 2, [("document_id", "d1"), ("case_title", "")]⟩

/-- Lower-scored document with the plain document id `d1`. -/
def c4_doc2 : Doc := ⟨"b", "content-2", some 1, [("document_id", "d1")]⟩

/-- Source key carried by a formatted mapping: the key derived from its
stored metadata (for a real document, the key the formatter used when it
retained it). -/
def carried_source_key : PyDoc → Option String
  | .fdict _ m => source_key_of m
  | .doc d => code_source_key (.doc d)

/-- Higher-scored document of the identical-key pair. -/
def c5_doc1 : Doc := ⟨"a", "c1", some 2, [("document_id", "d1")]⟩

/-- Lower-scored document with the same source key. -/
def c5_doc2 : Doc := ⟨"b", "c2", some 1, [("document_id", "d1")]⟩

/-! Helper lemmas. -/

theorem embed_loop_ok_length {α : Type} (f : String → Except String α) :
    ∀ {l : List Question} {r : List α}, embed_loop f l = .ok r → r.length = l.length := by
  intro l
  induction l with
  | nil => intro r h; cases h; rfl
  | cons q rest ih =>
    intro r h
    unfold embed_loop at h
    cases hf : f q.question with
    | error e => rw [hf] at h; cases h
    | ok v =>
      rw [hf] at h
      cases ht : embed_loop f rest with
      | error e => rw [ht] at h; cases h
      | ok tail => rw [ht] at h; cases h; simp [ih ht]

theorem embed_loop_ok_of_all {α : Type} (f : String → Except String α) :
    ∀ {l : List Question}, (∀ q ∈ l, (f q.question).isOk = true) →
      ∃ r, embed_loop f l = .ok r := by
  intro l
  induction l with
  | nil => intro _; exact ⟨[], rfl⟩
  | cons q rest ih =>
    intro h
    have hq := h q (List.mem_cons_self q rest)
    cases hf : f q.question with
    | error e => rw [hf] at hq; cases hq
    | ok v =>
      obtain ⟨tail, htail⟩ := ih (fun p hp => h p (List.mem_cons_of_mem q hp))
      exact ⟨v :: tail, by unfold embed_loop; rw [hf, htail]⟩

theorem embed_loop_error_of_mem {α : Type} (f : String → Except String α) :
    ∀ {l : List Question} {q : Question}, q ∈ l → (f q.question).isOk = false →
      ∃ e, embed_loop f l = .error e := by
  intro l
  induction l with
  | nil => intro q hq; cases hq
  | cons p rest ih =>
    intro q hq hfail
    cases hf : f p.question with
    | error e => exact ⟨e, by unfold embed_loop; rw [hf]⟩
    | ok v =>
      rcases List.mem_cons.mp hq with hqp | hqrest
      · subst hqp; rw [hf] at hfail; cases hfail
      · obtain ⟨e, he⟩ := ih hqrest hfail
        exact ⟨e, by unfold embed_loop; rw [hf, he]⟩

/-! Claim C6: positional alignment of the two embedding lists. -/

/-- C6, literal reading, refuted: with a one-question set, a failing dense
backend and a working sparse backend, the dense list is empty while the
sparse list has length 1 — the pair is partially populated, because the
two embedder components fail independently. -/
theorem claim_C6_counterexample :
    ¬ (((multi_query_embedder_run ⟨[⟨"q1", none⟩]⟩
           (fun _ => (.error "dense backend failure" : Except String (List Int)))).length = 1 ∧
        (multi_query_embedder_run ⟨[⟨"q1", none⟩]⟩
           (fun s => (.ok s : Except String String))).length = 1) ∨
       (multi_query_embedder_run ⟨[⟨"q1", none⟩]⟩
           (fun _ => (.error "dense backend failure" : Except String (List Int))) = [] ∧
        multi_query_embedder_run ⟨[⟨"q1", none⟩]⟩
           (fun s => (.ok s : Except String String)) = [])) := by
  decide

/-- C6, amended: each embedder component independently returns one
embedding per question when its own backend succeeds on every question,
and the empty list when its backend fails on any question; the two lists
agree in length only when both components succeed or both fail, since the
components fail independently. -/
theorem claim_C6_amended {α β : Type} (qs : Questions)
    (embed_dense : String → Except String α) (embed_sparse : String → Except String β) :
    ((∀ q ∈ qs.questions, (embed_dense q.question).isOk = true) →
      (multi_query_embedder_run qs embed_dense).length = qs.questions.length) ∧
    ((∃ q ∈ qs.questions, (embed_dense q.question).isOk = false) →
      multi_query_embedder_run qs embed_dense = []) ∧
    ((∀ q ∈ qs.questions, (embed_sparse q.question).isOk = true) →
      (multi_query_embedder_run qs embed_sparse).length = qs.questions.length) ∧
    ((∃ q ∈ qs.questions, (embed_sparse q.question).isOk = false) →
      multi_query_embedder_run qs embed_sparse = []) := by
  refine ⟨?_, ?_, ?_, ?_⟩
  · intro h
    obtain ⟨r, hr⟩ := embed_loop_ok_of_all embed_dense h
    unfold multi_query_embedder_run
    rw [hr]
    exact embed_loop_ok_length embed_dense hr
  · intro ⟨q, hq, hfail⟩
    obtain ⟨e, he⟩ := embed_loop_error_of_mem embed_dense hq hfail
    unfold multi_query_embedder_run
    rw [he]
  · intro h
    obtain ⟨r, hr⟩ := embed_loop_ok_of_all embed_sparse h
    unfold multi_query_embedder_run
    rw [hr]
    exact embed_loop_ok_length embed_sparse hr
  · intro ⟨q, hq, hfail⟩
    obtain ⟨e, he⟩ := embed_loop_error_of_mem embed_sparse hq hfail
    unfold multi_query_embedder_run
    rw [he]

/-- Witness for C6 amended, at a concrete two-question set with a working
dense backend and a sparse backend failing on the second question. -/
theorem claim_C6_witness :
    (∀ q ∈ (⟨[⟨"qa", none⟩, ⟨"qb", none⟩]⟩ : Questions).questions,
      ((fun s => (.ok [s.length] : Except String (List Int))) q.question).isOk = true) ∧
    (multi_query_embedder_run ⟨[⟨"qa", none⟩, ⟨"qb", none⟩]⟩
      (fun s => (.ok [s.length] : Except String (List Int)))).length = 2 ∧
    (∃ q ∈ (⟨[⟨"qa", none⟩, ⟨"qb", none⟩]⟩ : Questions).questions,
      ((fun s => if s = "qb" then (.error "boom" : Except String String) else .ok s) q.question).isOk = false) ∧
    multi_query_embedder_run ⟨[⟨"qa", none⟩, ⟨"qb", none⟩]⟩
      (fun s => if s = "qb" then (.error "boom" : Except String String) else .ok s) = [] := by
  refine ⟨by decide, ?_, ⟨⟨"qb", none⟩, by decide, by decide⟩, ?_⟩
  · exact (claim_C6_amended ⟨[⟨"qa", none⟩, ⟨"qb", none⟩]⟩
      (fun s => (.ok [s.length] : Except String (List Int)))
      (fun s => (.ok s : Except String String))).1 (by decide)
  · exact (claim_C6_amended ⟨[⟨"qa", none⟩, ⟨"qb", none⟩]⟩
      (fun s => (.ok s : Except String String))
      (fun s => if s = "qb" then (.error "boom" : Except String String) else .ok s)).2.2.2
      ⟨⟨"qb", none⟩, by decide, by decide⟩

/-! Claim C3: the validator's guaranteed non-empty output and exact
single-element fallback. -/

/-- C3, confirmed: for every input value and original question, the
validator's output has at least one question; and whenever the input is
absent, not coercible to a `Questions` object, or coerces to one with zero
questions, the output is exactly the one-element set containing the
original question with no answer. -/
theorem claim_C3 (questions : Option Value) (oq : String) :
    1 ≤ (DecompositionValidator.run questions oq).questions.length ∧
    ((questions = none ∨ ∃ v, questions = some v ∧
        (validator_coerce v = none ∨ validator_coerce v = some ⟨[]⟩)) →
      DecompositionValidator.run questions oq = ⟨[⟨oq, none⟩]⟩) := by
  constructor
  · cases questions with
    | none => simp [DecompositionValidator.run]
    | some v =>
      cases h : validator_coerce v with
      | none => simp [DecompositionValidator.run, h]
      | some qs =>
        obtain ⟨l⟩ := qs
        cases l <;> simp [DecompositionValidator.run, h]
  · intro h
    rcases h with h | ⟨v, hv, h⟩
    · subst h; rfl
    · subst hv
      rcases h with h | h <;> simp [DecompositionValidator.run, h]

/-- Witness for C3 at a concrete non-coercible input (a bare string). -/
theorem claim_C3_witness :
    1 ≤ (DecompositionValidator.run (some (.vStr "junk")) "orig").questions.length ∧
    DecompositionValidator.run (some (.vStr "junk")) "orig" = ⟨[⟨"orig", none⟩]⟩ :=
  ⟨(claim_C3 (some (.vStr "junk")) "orig").1,
   (claim_C3 (some (.vStr "junk")) "orig").2 (Or.inr ⟨.vStr "junk", rfl, Or.inl rfl⟩)⟩

/-! Claim C8: the permissive JSON-extraction policy of the structured
output parser. -/

/-- C8, confirmed: when the reply contains a first opening brace at `i`
and a last closing brace at `j` with `i ≤ j`, the parser parses exactly
the inclusive slice between them; when the reply contains no brace of
either kind it parses the entire reply; and in both regimes a parse error
produces the empty `Questions` object instead of an exception. -/
theorem claim_C8 (parse : List Char → Except String Questions) (text : List Char) :
    (∀ i j, firstIdxOf '\x7b' text = some i → lastIdxOf '\x7d' text = some j → i ≤ j →
      ExtendedCohereGenerator._parse_structured_output parse text =
        or_empty (parse ((text.drop i).take (j + 1 - i)))) ∧
    ((∀ c ∈ text, c ≠ '\x7b') → (∀ c ∈ text, c ≠ '\x7d') →
      ExtendedCohereGenerator._parse_structured_output parse text = or_empty (parse text)) ∧
    (∀ i j err, firstIdxOf '\x7b' text = some i → lastIdxOf '\x7d' text = some j → i ≤ j →
      parse ((text.drop i).take (j + 1 - i)) = .error err →
      ExtendedCohereGenerator._parse_structured_output parse text = ⟨[]⟩) ∧
    (∀ err, (∀ c ∈ text, c ≠ '\x7b') → (∀ c ∈ text, c ≠ '\x7d') → parse text = .error err →
      ExtendedCohereGenerator._parse_structured_output parse text = ⟨[]⟩) := by
  have main1 : ∀ i j, firstIdxOf '\x7b' text = some i → lastIdxOf '\x7d' text = some j → i ≤ j →
      ExtendedCohereGenerator._parse_structured_output parse text =
        or_empty (parse ((text.drop i).take (j + 1 - i))) := by
    intro i j hi hj hij
    unfold ExtendedCohereGenerator._parse_structured_output
    rw [hi, hj]
    have hcond : (0 : Int) ≤ (i : Int) ∧ (i : Int) < (j : Int) + 1 := by
      constructor <;> omega
    rw [if_pos hcond]
    have h1 : ((i : Int)).toNat = i := by omega
    have h2 : ((j : Int) + 1 - (i : Int)).toNat = j + 1 - i := by omega
    rw [h1, h2]
  have main2 : (∀ c ∈ text, c ≠ '\x7b') → (∀ c ∈ text, c ≠ '\x7d') →
      ExtendedCohereGenerator._parse_structured_output parse text = or_empty (parse text) := by
    intro hopen hclose
    have hfi : firstIdxOf '\x7b' text = none := by
      unfold firstIdxOf
      exact List.findIdx?_eq_none_iff.mpr (fun c hc => by simpa using hopen c hc)
    have hla : lastIdxOf '\x7d' text = none := by
      unfold lastIdxOf
      have : text.reverse.findIdx? (· = '\x7d') = none :=
        List.findIdx?_eq_none_iff.mpr
          (fun c hc => by simpa using hclose c (List.mem_reverse.mp hc))
      rw [this]
    unfold ExtendedCohereGenerator._parse_structured_output
    rw [hfi, hla]
    norm_num
  refine ⟨main1, main2, ?_, ?_⟩
  · intro i j err hi hj hij herr
    rw [main1 i j hi hj hij, herr]
    rfl
  · intro err hopen hclose herr
    rw [main2 hopen hclose, herr]
    rfl

/-- Witness for C8 at a concrete reply with prose around the braces. -/
theorem claim_C8_witness :
    firstIdxOf '\x7b' ("ab\x7b\x7dc".toList) = some 2 ∧
    lastIdxOf '\x7d' ("ab\x7b\x7dc".toList) = some 3 ∧
    ExtendedCohereGenerator._parse_structured_output c8_parse ("ab\x7b\x7dc".toList) =
      or_empty (c8_parse ((("ab\x7b\x7dc".toList).drop 2).take (3 + 1 - 2))) :=
  ⟨by decide, by decide,
   (claim_C8 c8_parse ("ab\x7b\x7dc".toList)).1 2 3 (by decide) (by decide) (by decide)⟩

/-! Claim C1: the three consumers of structured replies and the 2-tuple
normalization case. -/

/-- C1, literal reading, refuted: on a 2-tuple whose second element is a
sequence of questions, the post-resolution consumer produces the empty
`Questions` fallback and the post-decomposition validator produces its
single-question fallback; only the post-cache-read reconstruction builds
the `Questions` object from the sequence, so the three consumers do not
apply one shared normalization. -/
theorem claim_C1_counterexample :
    LegalDecompositionPipelineService.process_structured_reply c1_tuple =
      .ok (.vQuestionsObj ⟨[]⟩) ∧
    DecompositionValidator.run (some c1_tuple) "orig" = ⟨[⟨"orig", none⟩]⟩ ∧
    _reconstruct_models c1_tuple = .vQuestionsObj ⟨[⟨"What is consideration?", none⟩]⟩ ∧
    (Value.vQuestionsObj ⟨[]⟩ ≠ .vQuestionsObj ⟨[⟨"What is consideration?", none⟩]⟩) :=
  ⟨rfl, rfl, rfl, by simp⟩

/-- C1, amended: the tuple case is handled only by the cache-read
reconstruction, and only for tuples whose first element is the string
`"questions"` with a valid non-empty question list second element; the
post-resolution consumer maps every tuple to the empty `Questions`
fallback, and the validator maps every tuple to its single-question
fallback. -/
theorem claim_C1_amended (payload : List Value) (oq : String) (items : List Value)
    (qs : List Question) :
    LegalDecompositionPipelineService.process_structured_reply (.vTuple payload) =
      .ok (.vQuestionsObj ⟨[]⟩) ∧
    DecompositionValidator.run (some (.vTuple payload)) oq = ⟨[⟨oq, none⟩]⟩ ∧
    (items ≠ [] → validateQuestionsField items = .ok qs →
      _reconstruct_models (.vTuple (.vStr "questions" :: .vList items :: payload)) =
        .vQuestionsObj ⟨qs⟩) := by
  refine ⟨rfl, rfl, ?_⟩
  intro hne hval
  cases items with
  | nil => exact absurd rfl hne
  | cons i is => simp [_reconstruct_models, hval]

/-- Witness for C1 amended at a concrete tuple carrying one valid
question value and a trailing extra element. -/
theorem claim_C1_witness :
    ([Value.vQuestionObj ⟨"wq", none⟩] ≠ ([] : List Value)) ∧
    validateQuestionsField [Value.vQuestionObj ⟨"wq", none⟩] = .ok [⟨"wq", none⟩] ∧
    _reconstruct_models
        (.vTuple (.vStr "questions" :: .vList [.vQuestionObj ⟨"wq", none⟩] :: [.vStr "tag"])) =
      .vQuestionsObj ⟨[⟨"wq", none⟩]⟩ :=
  ⟨by simp, rfl,
   (claim_C1_amended [.vStr "tag"] "orig" [.vQuestionObj ⟨"wq", none⟩] [⟨"wq", none⟩]).2.2
     (by simp) rfl⟩

/-! Claim C2: the cache serialization round trip. -/

theorem py_json_round_trip_dump_question (q : Question) :
    py_json_round_trip (model_dump_question q) = some (model_dump_question q) := by
  obtain ⟨t, a⟩ := q
  cases a <;> rfl

theorem py_json_items_dump (l : List Question) :
    pyJsonItems (l.map model_dump_question) = some (l.map model_dump_question) := by
  induction l with
  | nil => rfl
  | cons q rest ih =>
    simp only [List.map_cons]
    unfold pyJsonItems
    rw [py_json_round_trip_dump_question q, ih]

theorem reconstruct_loop_dump (l : List Question) :
    _reconstruct_questions_loop (l.map model_dump_question) = .ok l := by
  induction l with
  | nil => rfl
  | cons q rest ih =>
    obtain ⟨t, a⟩ := q
    cases a <;>
      simp [List.map_cons, model_dump_question, _reconstruct_questions_loop, dictGet,
        validateStrField, validateOptStrField, ih]

theorem reconstruct_dump_nonempty (q : Question) (rest : List Question) :
    _reconstruct_models (.vDict [("questions", .vList ((q :: rest).map model_dump_question))]) =
      .vQuestionsObj ⟨q :: rest⟩ := by
  have hloop := reconstruct_loop_dump (q :: rest)
  simp only [List.map_cons] at hloop ⊢
  simp [_reconstruct_models, dictGet, hloop]

/-- C2, literal reading, refuted at the empty QuestionSet: its cache round
trip returns the plain mapping `{"questions": []}`, not a `Questions`
instance, because the reconstruction only rebuilds the object when the
rebuilt question list is non-empty. -/
theorem claim_C2_counterexample :
    cache_round_trip (.vQuestionsObj ⟨[]⟩) = some (.vDict [("questions", .vList [])]) ∧
    some (Value.vDict [("questions", .vList [])]) ≠ some (Value.vQuestionsObj ⟨[]⟩) :=
  ⟨rfl, by simp⟩

/-- C2, amended: for every non-empty QuestionSet, serializing, crossing
the JSON boundary and reconstructing yields the identical `Questions`
instance — same texts, same answers, same order; the empty QuestionSet
instead comes back as the plain mapping. -/
theorem claim_C2_amended (qs : Questions) (h : qs.questions ≠ []) :
    cache_round_trip (.vQuestionsObj qs) = some (.vQuestionsObj qs) := by
  obtain ⟨l⟩ := qs
  cases l with
  | nil => exact absurd rfl h
  | cons q rest =>
    unfold cache_round_trip
    have hprep : _prepare_for_serialization (.vQuestionsObj ⟨q :: rest⟩) =
        .vDict [("questions", .vList ((q :: rest).map model_dump_question))] := rfl
    rw [hprep]
    have hlist : py_json_round_trip (.vList ((q :: rest).map model_dump_question)) =
        some (.vList ((q :: rest).map model_dump_question)) := by
      unfold py_json_round_trip
      rw [py_json_items_dump]
      rfl
    have hjson : py_json_round_trip
          (.vDict [("questions", .vList ((q :: rest).map model_dump_question))]) =
        some (.vDict [("questions", .vList ((q :: rest).map model_dump_question))]) := by
      unfold py_json_round_trip pyJsonEntries
      rw [hlist]
      rfl
    rw [hjson]
    simpa using reconstruct_dump_nonempty q rest

/-- Witness for C2 amended at a concrete one-question set with an
answer. -/
theorem claim_C2_witness :
    ((⟨[⟨"q1", some "a1"⟩]⟩ : Questions).questions ≠ []) ∧
    cache_round_trip (.vQuestionsObj ⟨[⟨"q1", some "a1"⟩]⟩) =
      some (.vQuestionsObj ⟨[⟨"q1", some "a1"⟩]⟩) :=
  ⟨by simp, claim_C2_amended ⟨[⟨"q1", some "a1"⟩]⟩ (by simp)⟩

/-! Claims C9 and C10: the orchestrator's top-level error boundary. -/

/-- C9, confirmed: an exception escaping the pipeline stages (or the
result processing, which runs inside the same `try`) is converted into
the apology result embedding the error detail, with empty document
metadata and `cache_hit = False`; and for every combination of cache
state and stage outcome `run_pipeline` returns a well-formed mapping —
it never re-raises. -/
theorem claim_C9 (e question : String) (elapsed : Rat)
    (cached : Option (List (String × Value))) (outcome : Except String PipelineResults) :
    LegalDecompositionPipelineService.run_pipeline none (.error e) question elapsed =
      .vDict [("answer", .vStr ("An error occurred while processing your question: " ++ e)),
              ("error", .vStr e),
              ("document_metadata", .vList []),
              ("processing_time", .vRat elapsed),
              ("cache_hit", .vBool false)] ∧
    ∃ entries, LegalDecompositionPipelineService.run_pipeline cached outcome question elapsed =
      .vDict entries := by
  constructor
  · rfl
  · unfold LegalDecompositionPipelineService.run_pipeline
    cases cached with
    | some c => exact ⟨_, rfl⟩
    | none =>
      cases houtcome : (outcome.bind fun results =>
          LegalDecompositionPipelineService._process_pipeline_results results question) with
      | ok pr => exact ⟨_, rfl⟩
      | error err => exact ⟨_, rfl⟩

/-- C10, confirmed: the error result of `run_pipeline` carries exactly the
keys `answer`, `error`, `document_metadata`, `processing_time` and
`cache_hit` — no `sub_questions` key — so the downstream consumer that
reads `sub_questions` with `.get` observes an absent value and extracts no
decomposed questions. -/
theorem claim_C10 (e question : String) (elapsed : Rat) :
    ∃ entries,
      LegalDecompositionPipelineService.run_pipeline none (.error e) question elapsed =
        .vDict entries ∧
      entries.map Prod.fst =
        ["answer", "error", "document_metadata", "processing_time", "cache_hit"] ∧
      dictGet entries "sub_questions" = none ∧
      EnhancedLegalPipelineService.extract_decomposed_questions
        (dictGet entries "sub_questions") = [] :=
  ⟨[("answer", .vStr ("An error occurred while processing your question: " ++ e)),
    ("error", .vStr e),
    ("document_metadata", .vList []),
    ("processing_time", .vRat elapsed),
    ("cache_hit", .vBool false)], rfl, rfl, rfl, rfl⟩

/-! Helper lemmas for the document formatter. -/

theorem mem_insert_by_score_desc {a x : PyDoc} :
    ∀ {l : List PyDoc}, x ∈ insert_by_score_desc a l → x = a ∨ x ∈ l := by
  intro l
  induction l with
  | nil =>
    intro h
    simp only [insert_by_score_desc, List.mem_singleton] at h
    exact Or.inl h
  | cons b bs ih =>
    intro h
    simp only [insert_by_score_desc] at h
    split at h
    · rcases List.mem_cons.mp h with h1 | h2
      · exact Or.inl h1
      · exact Or.inr h2
    · rcases List.mem_cons.mp h with h1 | h2
      · exact Or.inr (List.mem_cons.mpr (Or.inl h1))
      · rcases ih h2 with h3 | h4
        · exact Or.inl h3
        · exact Or.inr (List.mem_cons.mpr (Or.inr h4))

theorem mem_sorted_by_score_desc {x : PyDoc} :
    ∀ {l : List PyDoc}, x ∈ sorted_by_score_desc l → x ∈ l := by
  intro l
  induction l with
  | nil => intro h; cases h
  | cons a as ih =>
    intro h
    rcases mem_insert_by_score_desc h with h1 | h2
    · exact h1 ▸ List.mem_cons_self a as
    · exact List.mem_cons.mpr (Or.inr (ih h2))

theorem length_insert_by_score_desc (a : PyDoc) :
    ∀ l : List PyDoc, (insert_by_score_desc a l).length = l.length + 1 := by
  intro l
  induction l with
  | nil => rfl
  | cons b bs ih =>
    simp only [insert_by_score_desc]
    split
    · rfl
    · simp [ih]

theorem length_sorted_by_score_desc :
    ∀ l : List PyDoc, (sorted_by_score_desc l).length = l.length := by
  intro l
  induction l with
  | nil => rfl
  | cons a as ih =>
    simp only [sorted_by_score_desc]
    rw [length_insert_by_score_desc, ih]
    rfl

theorem format_loop_docs :
    ∀ (l : List PyDoc) (seen : List (Option String)),
      (∀ x ∈ l, ∃ d, x = PyDoc.doc d) →
      format_loop l seen = .ok ((dedup_first_by code_source_key l seen).map format_entry) := by
  intro l
  induction l with
  | nil => intro seen _; rfl
  | cons p rest ih =>
    intro seen hall
    obtain ⟨d, hd⟩ := hall p (List.mem_cons_self p rest)
    subst hd
    have hrest : ∀ x ∈ rest, ∃ d, x = PyDoc.doc d :=
      fun x hx => hall x (List.mem_cons_of_mem _ hx)
    simp only [format_loop, dedup_first_by, code_source_key]
    by_cases hmem : source_key_of (py_extract_metadata (PyDoc.doc d)) ∈ seen
    · rw [if_pos hmem, if_pos hmem]
      exact ih seen hrest
    · rw [if_neg hmem, if_neg hmem]
      simp only [py_content_attr]
      rw [ih (source_key_of (py_extract_metadata (PyDoc.doc d)) :: seen) hrest]
      simp [format_entry, py_extract_metadata]

theorem format_docs_ok (docs : List Doc) :
    MultiQueryHybridRetriever._format_documents_for_context (docs.map PyDoc.doc) =
      .ok (format_spec docs) := by
  unfold MultiQueryHybridRetriever._format_documents_for_context format_spec
  apply format_loop_docs
  intro x hx
  obtain ⟨d, _, hdx⟩ := List.mem_map.mp (mem_sorted_by_score_desc hx)
  exact ⟨d, hdx.symm⟩

theorem mem_dedup_first_by (key : PyDoc → Option String) :
    ∀ {l : List PyDoc} {seen : List (Option String)} {x : PyDoc},
      x ∈ dedup_first_by key l seen → x ∈ l := by
  intro l
  induction l with
  | nil => intro seen x h; cases h
  | cons p rest ih =>
    intro seen x h
    simp only [dedup_first_by] at h
    split at h
    · exact List.mem_cons.mpr (Or.inr (ih h))
    · rcases List.mem_cons.mp h with h1 | h2
      · exact h1 ▸ List.mem_cons_self p rest
      · exact List.mem_cons.mpr (Or.inr (ih h2))

theorem dedup_first_by_key_spec (key : PyDoc → Option String) :
    ∀ (l : List PyDoc) (seen : List (Option String)),
      ((dedup_first_by key l seen).map key).Nodup ∧
      ∀ k ∈ (dedup_first_by key l seen).map key, k ∉ seen := by
  intro l
  induction l with
  | nil => intro seen; exact ⟨List.nodup_nil, by simp [dedup_first_by]⟩
  | cons p rest ih =>
    intro seen
    simp only [dedup_first_by]
    by_cases hmem : key p ∈ seen
    · rw [if_pos hmem]; exact ih seen
    · rw [if_neg hmem]
      obtain ⟨hnd, hns⟩ := ih (key p :: seen)
      constructor
      · simp only [List.map_cons]
        rw [List.nodup_cons]
        refine ⟨fun hk => ?_, hnd⟩
        exact hns (key p) hk (List.mem_cons_self _ _)
      · intro k hk
        simp only [List.map_cons, List.mem_cons] at hk
        rcases hk with hk | hk
        · exact hk ▸ hmem
        · intro hkseen
          exact hns k hk (List.mem_cons_of_mem _ hkseen)

theorem format_entry_fdict (p : PyDoc) : ∃ c m, format_entry p = PyDoc.fdict c m := by
  cases p <;> exact ⟨_, _, rfl⟩

theorem format_fdict_error :
    ∀ l : List PyDoc, (∀ x ∈ l, ∃ c m, x = PyDoc.fdict c m) → l ≠ [] →
      MultiQueryHybridRetriever._format_documents_for_context l =
        .error "AttributeError: content" := by
  intro l hall hne
  unfold MultiQueryHybridRetriever._format_documents_for_context
  cases hs : sorted_by_score_desc l with
  | nil =>
    exfalso
    have := length_sorted_by_score_desc l
    rw [hs] at this
    exact hne (List.length_eq_zero.mp this.symm)
  | cons p rest =>
    have hp : p ∈ sorted_by_score_desc l := by rw [hs]; exact List.mem_cons_self p rest
    obtain ⟨c, m, hcm⟩ := hall p (mem_sorted_by_score_desc hp)
    subst hcm
    simp [format_loop, py_extract_metadata, source_key_of, py_content_attr]

/-! Claim C4: source-key derivation and deduplication of the document
formatter. -/

/-- C4, literal reading, refuted: the claim's key rule uses any present
title field, but the code skips falsy (empty) title values, so a document
with an empty `case_title` deduplicates against a plain `d1` document
where the claim predicts two surviving entries. -/
theorem claim_C4_counterexample :
    MultiQueryHybridRetriever._format_documents_for_context ([c4_doc1, c4_doc2].map PyDoc.doc) ≠
      .ok (claimed_format [c4_doc1, c4_doc2]) ∧
    MultiQueryHybridRetriever._format_documents_for_context ([c4_doc1, c4_doc2].map PyDoc.doc) =
      .ok [.fdict "content-1" ⟨some "d1", none⟩] ∧
    claimed_format [c4_doc1, c4_doc2] =
      [.fdict "content-1" ⟨some "d1", none⟩, .fdict "content-2" ⟨some "d1", none⟩] := by
  have h2 : MultiQueryHybridRetriever._format_documents_for_context
      ([c4_doc1, c4_doc2].map PyDoc.doc) = .ok [.fdict "content-1" ⟨some "d1", none⟩] := rfl
  have h3 : claimed_format [c4_doc1, c4_doc2] =
      [.fdict "content-1" ⟨some "d1", none⟩, .fdict "content-2" ⟨some "d1", none⟩] := rfl
  refine ⟨?_, h2, h3⟩
  rw [h2, h3]
  simp

/-- C4, amended: the formatter sorts by score descending (stably), derives
the source key as `titleField:titleValue` for the first title field
present with a non-empty value (otherwise the document id), and keeps
exactly the first document per key in that order — the higher-scored one,
ties broken by first-seen position. -/
theorem claim_C4_amended (docs : List Doc) :
    MultiQueryHybridRetriever._format_documents_for_context (docs.map PyDoc.doc) =
      .ok (format_spec docs) :=
  format_docs_ok docs

/-! Claim C5: deduplication idempotence of the formatter. -/

/-- C5, literal reading, refuted: on a two-document list with identical
source keys one mapping survives, but running the formatter a second time
on that output raises an `AttributeError` (the formatted entries are plain
mappings without a `content` attribute) instead of returning the same
result. -/
theorem claim_C5_counterexample :
    MultiQueryHybridRetriever._format_documents_for_context ([c5_doc1, c5_doc2].map PyDoc.doc) =
      .ok [.fdict "c1" ⟨some "d1", none⟩] ∧
    MultiQueryHybridRetriever._format_documents_for_context [.fdict "c1" ⟨some "d1", none⟩] =
      .error "AttributeError: content" ∧
    ((Except.error "AttributeError: content" : Except String (List PyDoc)) ≠
      .ok [.fdict "c1" ⟨some "d1", none⟩]) :=
  ⟨rfl, rfl, by simp⟩

/-- C5, amended: a single formatter run keeps at most one entry per source
key — the first one in the stable descending-score order — but the
formatter is not idempotent: on any non-empty output a second run raises
an `AttributeError` because formatted entries are plain mappings without
`content`/`score`/`meta` attributes, and only on the empty output does a
second run return the same (empty) result. -/
theorem claim_C5_amended (docs : List Doc) :
    MultiQueryHybridRetriever._format_documents_for_context (docs.map PyDoc.doc) =
      .ok (format_spec docs) ∧
    ((format_spec docs).map carried_source_key).Nodup ∧
    (format_spec docs ≠ [] →
      MultiQueryHybridRetriever._format_documents_for_context (format_spec docs) =
        .error "AttributeError: content") ∧
    (format_spec docs = [] →
      MultiQueryHybridRetriever._format_documents_for_context (format_spec docs) = .ok []) := by
  refine ⟨format_docs_ok docs, ?_, ?_, ?_⟩
  · have h2 : (format_spec docs).map carried_source_key =
        (dedup_first_by code_source_key (sorted_by_score_desc (docs.map PyDoc.doc)) []).map
          code_source_key := by
      unfold format_spec
      rw [List.map_map]
      apply List.map_congr_left
      intro p hp
      obtain ⟨d, _, hdx⟩ := List.mem_map.mp (mem_sorted_by_score_desc (mem_dedup_first_by _ hp))
      rw [← hdx]
      rfl
    rw [h2]
    exact (dedup_first_by_key_spec code_source_key _ []).1
  · intro hne
    apply format_fdict_error _ _ hne
    intro x hx
    obtain ⟨p, _, hpx⟩ := List.mem_map.mp hx
    obtain ⟨c, m, hcm⟩ := format_entry_fdict p
    exact ⟨c, m, by rw [← hpx, hcm]⟩
  · intro hempty
    rw [hempty]
    rfl

/-- Witness for C5 amended at the concrete identical-key pair. -/
theorem claim_C5_witness :
    (format_spec [c5_doc1, c5_doc2] ≠ []) ∧
    MultiQueryHybridRetriever._format_documents_for_context (format_spec [c5_doc1, c5_doc2]) =
      .error "AttributeError: content" :=
  ⟨by decide, (claim_C5_amended [c5_doc1, c5_doc2]).2.2.1 (by decide)⟩

/-! Claim C7: one pair per sub-question, in input order, with per-unit
failure isolation. -/

theorem process_query_eq_pure {δ σ : Type} (retrieve : δ → σ → Except String (List Doc))
    (rerank : String → List Doc → Except String (List Doc))
    (query : Question) (dense_emb : δ) (sparse_emb : σ) :
    process_query retrieve rerank query dense_emb sparse_emb =
      .ok (process_query_pure retrieve rerank query dense_emb sparse_emb) := by
  unfold process_query process_query_pure
  simp only [format_docs_ok]

theorem pairs_loop_ok {δ σ : Type} (retrieve : δ → σ → Except String (List Doc))
    (rerank : String → List Doc → Except String (List Doc)) :
    ∀ ts : List (Question × δ × σ),
      pairs_loop retrieve rerank ts =
        .ok (ts.map fun t => process_query_pure retrieve rerank t.1 t.2.1 t.2.2) := by
  intro ts
  induction ts with
  | nil => rfl
  | cons t rest ih =>
    obtain ⟨q, de, se⟩ := t
    unfold pairs_loop
    rw [process_query_eq_pure, ih]
    rfl

theorem run_eq_map {δ σ : Type} (queries : Questions) (dense : List δ) (sparse : List σ)
    (retrieve : δ → σ → Except String (List Doc))
    (rerank : String → List Doc → Except String (List Doc)) :
    MultiQueryHybridRetriever.run queries dense sparse retrieve rerank =
      (zip3 queries.questions dense sparse).map
        (fun t => process_query_pure retrieve rerank t.1 t.2.1 t.2.2) := by
  unfold MultiQueryHybridRetriever.run
  rw [pairs_loop_ok]

theorem zip3_length_of_eq {α β γ : Type} :
    ∀ {as : List α} {bs : List β} {cs : List γ},
      bs.length = as.length → cs.length = as.length →
      (zip3 as bs cs).length = as.length := by
  intro as
  induction as with
  | nil => intro bs cs _ _; cases bs <;> cases cs <;> rfl
  | cons a as ih =>
    intro bs cs hb hc
    cases bs with
    | nil => cases hb
    | cons b bs =>
      cases cs with
      | nil => cases hc
      | cons c cs =>
        simp only [zip3, List.length_cons]
        rw [ih (by simpa using hb) (by simpa using hc)]

theorem zip3_getElem? {α β γ : Type} :
    ∀ {as : List α} {bs : List β} {cs : List γ} {i : Nat} {a : α} {b : β} {c : γ},
      as[i]? = some a → bs[i]? = some b → cs[i]? = some c →
      (zip3 as bs cs)[i]? = some (a, b, c) := by
  intro as
  induction as with
  | nil => intro bs cs i a b c ha; simp at ha
  | cons x xs ih =>
    intro bs cs i a b c ha hb hc
    cases bs with
    | nil => simp at hb
    | cons y ys =>
      cases cs with
      | nil => simp at hc
      | cons z zs =>
        cases i with
        | zero =>
          simp only [List.getElem?_cons_zero, Option.some_inj] at ha hb hc
          simp [zip3, ha, hb, hc]
        | succ n =>
          simp only [List.getElem?_cons_succ] at ha hb hc
          simpa [zip3] using ih ha hb hc

/-- C7, literal reading, refuted on the reranking half: with one
sub-question whose retrieval yields a document but whose reranking fails,
the returned pair carries the formatted pre-rerank document — a non-empty
documents list — not the empty list the claim states for a failed
reranking. -/
theorem claim_C7_counterexample :
    MultiQueryHybridRetriever.run ⟨[⟨"q0", none⟩]⟩ [0] [0]
      (fun (_ : Nat) (_ : Nat) => .ok [⟨"docA", "contentA", some 1, [("document_id", "dA")]⟩])
      (fun _ _ => .error "rerank backend down") =
      [⟨"q0", [.fdict "contentA" ⟨some "dA", none⟩]⟩] ∧
    ([PyDoc.fdict "contentA" ⟨some "dA", none⟩] ≠ ([] : List PyDoc)) := by
  constructor
  · rw [run_eq_map]
    rw [show (zip3 (⟨[⟨"q0", none⟩]⟩ : Questions).questions [0] [0] :
        List (Question × Nat × Nat)) = [(⟨"q0", none⟩, 0, 0)] from rfl]
    rw [List.map_cons]
    rw [show process_query_pure
        (fun (_ : Nat) (_ : Nat) =>
          (.ok [⟨"docA", "contentA", some 1, [("document_id", "dA")]⟩] : Except String (List Doc)))
        (fun _ _ => .error "rerank backend down") ⟨"q0", none⟩ 0 0 =
        (⟨"q0", [.fdict "contentA" ⟨some "dA", none⟩]⟩ : QuestionContextPair) from rfl]
    rfl
  · simp

/-- C7, amended: with positionally aligned embedding lists the retriever
returns exactly one pair per sub-question in input order; each pair
depends only on its own sub-question's unit; a unit whose retrieval fails
contributes a pair with empty documents at its position, and a unit whose
reranking fails contributes the formatted pre-rerank documents at its
position — not a gap, and without affecting sibling pairs. -/
theorem claim_C7_amended {δ σ : Type} (queries : Questions) (dense : List δ) (sparse : List σ)
    (retrieve : δ → σ → Except String (List Doc))
    (rerank : String → List Doc → Except String (List Doc))
    (hd : dense.length = queries.questions.length)
    (hs : sparse.length = queries.questions.length) :
    (MultiQueryHybridRetriever.run queries dense sparse retrieve rerank).length =
      queries.questions.length ∧
    (∀ (i : Nat) (q : Question) (de : δ) (se : σ),
      queries.questions[i]? = some q → dense[i]? = some de → sparse[i]? = some se →
      (MultiQueryHybridRetriever.run queries dense sparse retrieve rerank)[i]? =
        some (process_query_pure retrieve rerank q de se)) ∧
    (∀ (i : Nat) (q : Question) (de : δ) (se : σ),
      queries.questions[i]? = some q → dense[i]? = some de → sparse[i]? = some se →
      (retrieve de se).isOk = false →
      (MultiQueryHybridRetriever.run queries dense sparse retrieve rerank)[i]? =
        some (⟨q.question, []⟩ : QuestionContextPair)) ∧
    (∀ (i : Nat) (q : Question) (de : δ) (se : σ) (ds : List Doc),
      queries.questions[i]? = some q → dense[i]? = some de →
      sparse[i]? = some se → retrieve de se = .ok ds → ds ≠ [] →
      (rerank q.question ds).isOk = false →
      (MultiQueryHybridRetriever.run queries dense sparse retrieve rerank)[i]? =
        some (⟨q.question, format_spec ds⟩ : QuestionContextPair)) := by
  have hpoint : ∀ (i : Nat) (q : Question) (de : δ) (se : σ),
      queries.questions[i]? = some q → dense[i]? = some de →
      sparse[i]? = some se →
      (MultiQueryHybridRetriever.run queries dense sparse retrieve rerank)[i]? =
        some (process_query_pure retrieve rerank q de se) := by
    intro i q de se hq hde hse
    rw [run_eq_map, List.getElem?_map, zip3_getElem? hq hde hse]
    rfl
  refine ⟨?_, hpoint, ?_, ?_⟩
  · rw [run_eq_map, List.length_map]
    exact zip3_length_of_eq hd hs
  · intro i q de se hq hde hse hfail
    rw [hpoint i q de se hq hde hse]
    cases hr : retrieve de se with
    | ok ds => rw [hr] at hfail; cases hfail
    | error err =>
      have : process_query_pure retrieve rerank q de se = ⟨q.question, []⟩ := by
        unfold process_query_pure
        rw [hr]
        rfl
      rw [this]
  · intro i q de se ds hq hde hse hr hne hfail
    rw [hpoint i q de se hq hde hse]
    cases hrr : rerank q.question ds with
    | ok rs => rw [hrr] at hfail; cases hfail
    | error err =>
      have hds : ds.isEmpty = false := by
        cases ds with
        | nil => exact absurd rfl hne
        | cons d dd => rfl
      have : process_query_pure retrieve rerank q de se = ⟨q.question, format_spec ds⟩ := by
        unfold process_query_pure
        rw [hr]
        simp only [hds, Bool.false_eq_true, if_false, hrr]
      rw [this]

/-- Witness for C7 amended: two aligned sub-questions, the second unit's
retrieval failing, first unit unaffected and second pair empty at its
position. -/
theorem claim_C7_witness :
    (([0, 1] : List Nat).length = (⟨[⟨"qa", none⟩, ⟨"qb", none⟩]⟩ : Questions).questions.length) ∧
    (MultiQueryHybridRetriever.run ⟨[⟨"qa", none⟩, ⟨"qb", none⟩]⟩ [0, 1] [0, 1]
      (fun (d : Nat) (_ : Nat) =>
        if d = 0 then .ok [⟨"docA", "contentA", some 1, [("document_id", "dA")]⟩]
        else .error "search down")
      (fun _ ds => .ok ds)).length = 2 ∧
    (MultiQueryHybridRetriever.run ⟨[⟨"qa", none⟩, ⟨"qb", none⟩]⟩ [0, 1] [0, 1]
      (fun (d : Nat) (_ : Nat) =>
        if d = 0 then .ok [⟨"docA", "contentA", some 1, [("document_id", "dA")]⟩]
        else .error "search down")
      (fun _ ds => .ok ds))[1]? = some ⟨"qb", []⟩ :=
  ⟨rfl,
   (claim_C7_amended ⟨[⟨"qa", none⟩, ⟨"qb", none⟩]⟩ [0, 1] [0, 1]
      (fun (d : Nat) (_ : Nat) =>
        if d = 0 then .ok [⟨"docA", "contentA", some 1, [("document_id", "dA")]⟩]
        else .error "search down")
      (fun _ ds => .ok ds) rfl rfl).1,
   (claim_C7_amended ⟨[⟨"qa", none⟩, ⟨"qb", none⟩]⟩ [0, 1] [0, 1]
      (fun (d : Nat) (_ : Nat) =>
        if d = 0 then .ok [⟨"docA", "contentA", some 1, [("document_id", "dA")]⟩]
        else .error "search down")
      (fun _ ds => .ok ds) rfl rfl).2.2.1 1 ⟨"qb", none⟩ 1 1 rfl rfl rfl rfl⟩
